import Mathlib

/-!
Verification of the device-registry core of the `canscan` browser device
console against its natural-language specification.

The embedding follows `src/services/device.service.ts` (Device Registry,
Hardware Event Bridge, Network Device Manager, Connection Controller),
`src/models/device.model.ts` (data model), the validation logic of
`confirmSaveDevice` in the root component, and the AI facade
(`gemini.service.ts`).  Asynchronous hardware calls (`open`,
`selectConfiguration`, `releaseInterface`, `close`) and the generative-AI
backend are external collaborators: their outcomes are passed to the
embedded operations as explicit `Except String _` parameters.  A registry
mutation (`devices.update` / `devices.set` in the source) is one observable
state change; each embedded operation returns the registry value it
publishes.  A thrown JS `Error` is modelled as `Except.error` carrying the
message.
-/

/-- Status enum from `device.model.ts`. -/
inductive DeviceStatus
  | Connected
  | Ready
  | Offline
  | Error
deriving DecidableEq, Repr

/-- `DeviceType` from `device.model.ts`: 'Printer' | 'Scanner' | '3-in-1'. -/
inductive DeviceType
  | Printer
  | Scanner
  | ThreeInOne
deriving DecidableEq, Repr

/-- `ConnectionType` from `device.model.ts`: 'USB' | 'Network'. -/
inductive ConnectionType
  | USB
  | Network
deriving DecidableEq, Repr

/-- WebUSB `USBAlternateInterface` (the part the source reads). -/
structure USBAlternateInterface where
  interfaceClass : Nat
deriving DecidableEq, Repr

/-- WebUSB `USBInterface` (the part the source reads). -/
structure USBInterface where
  interfaceNumber : Nat
  alternates : List USBAlternateInterface
deriving DecidableEq, Repr

/-- WebUSB `USBConfiguration` (the part the source reads). -/
structure USBConfiguration where
  configurationValue : Nat
  interfaces : List USBInterface
deriving DecidableEq, Repr

/-- WebUSB `USBDevice` metadata, per the declarations in `device.model.ts`.
Optional string fields are JS `string | undefined`. -/
structure USBDevice where
  vendorId : Nat
  productId : Nat
  manufacturerName : Option String := none
  productName : Option String := none
  serialNumber : Option String := none
  opened : Bool := false
  configuration : Option USBConfiguration := none
  configurations : List USBConfiguration := []
deriving DecidableEq, Repr

/-- The `Device` record of `device.model.ts`. -/
structure Device where
  id : String
  name : String
  manufacturer : String
  type : DeviceType
  status : DeviceStatus
  connectionType : ConnectionType
  ipAddress : Option String := none
  port : Option Int := none
  profile : Option String := none
  rawDevice : Option USBDevice := none
deriving DecidableEq, Repr

/-- `NetworkDevicePayload` from `device.service.ts`. -/
structure NetworkDevicePayload where
  ip : String
  port : Int
  name : String
  profile : String
deriving DecidableEq, Repr

/-- JS `a || b` for an optional string `a`: `undefined` and `""` are falsy. -/
def jsStrOr (a : Option String) (b : String) : String :=
  match a with
  | none => b
  | some s => if s = "" then b else s

/-- `createDeviceId` (`device.service.ts` line 53):
`usb-${vendorId}-${productId}-${serialNumber || '0'}`. -/
def createDeviceId (u : USBDevice) : String :=
  "usb-" ++ toString u.vendorId ++ "-" ++ toString u.productId ++ "-" ++
    jsStrOr u.serialNumber "0"

/-- The character map of `ip.replace(/\./g, '-')`: every dot becomes a dash. -/
def dotToDash (c : Char) : Char :=
  if c = '.' then '-' else c

/-- `createNetworkDeviceId` (`device.service.ts` line 57):
`net-${ip.replace(/\./g, '-')}`. -/
def createNetworkDeviceId (ip : String) : String :=
  "net-" ++ String.mk (ip.data.map dotToDash)

/-- JS `haystack.includes(needle)`: contiguous-substring test, on char lists. -/
def strIncludesAux (pat : List Char) : List Char → Bool
  | [] => List.isPrefixOf pat []
  | c :: cs => List.isPrefixOf pat (c :: cs) || strIncludesAux pat cs

/-- JS `haystack.includes(needle)` on strings. -/
def strIncludes (hay pat : String) : Bool :=
  strIncludesAux pat.data hay.data

/-- `inferDeviceType` (`device.service.ts` lines 73-91): keyword heuristics on
the lower-cased product name, then interface-class 7 fallback, else Scanner. -/
def inferDeviceType (u : USBDevice) : DeviceType :=
  let name := ((u.productName.getD "")).toLower
  let isAPrinter := strIncludes name "printer" || strIncludes name "laserjet" ||
    strIncludes name "officejet" || strIncludes name "deskjet"
  let isAScanner := strIncludes name "scan" || strIncludes name "scanner" ||
    strIncludes name "lide"
  if (isAPrinter && isAScanner) || strIncludes name "3-in-1" ||
      strIncludes name "all-in-one" then
    DeviceType.ThreeInOne
  else if isAPrinter then
    DeviceType.Printer
  else if isAScanner then
    DeviceType.Scanner
  else if u.configurations.any (fun cfg =>
      cfg.interfaces.any (fun iface =>
        (iface.alternates.head?.map (fun a => a.interfaceClass)) == some 7)) then
    DeviceType.Printer
  else
    DeviceType.Scanner

/-- `mapUSBDeviceToDevice` (`device.service.ts` lines 61-71). -/
def mapUSBDeviceToDevice (u : USBDevice) : Device where
  id := createDeviceId u
  name := jsStrOr u.productName "Unknown USB Device"
  manufacturer := jsStrOr u.manufacturerName "Unknown Manufacturer"
  type := inferDeviceType u
  status := if u.opened then DeviceStatus.Connected else DeviceStatus.Ready
  connectionType := ConnectionType.USB
  rawDevice := some u

/-- `handleConnect` (`device.service.ts` lines 38-46): map the USB device and
append it unless an entry with the same id already exists. -/
def handleConnect (devices : List Device) (u : USBDevice) : List Device :=
  let newDevice := mapUSBDeviceToDevice u
  if devices.any (fun d => d.id == newDevice.id) then devices
  else devices ++ [newDevice]

/-- `handleDisconnect` (`device.service.ts` lines 48-51). -/
def handleDisconnect (devices : List Device) (u : USBDevice) : List Device :=
  devices.filter (fun d => d.id != createDeviceId u)

/-- Registry state produced by a sequence of USB connect notifications
starting from the empty registry. -/
def applyConnects (events : List USBDevice) : List Device :=
  events.foldl handleConnect []

/-- `addNetworkDevice` (`device.service.ts` lines 125-148): reject when some
entry already carries the payload's IP, else (after the simulated latency)
append the constructed device and resolve with it. -/
def addNetworkDevice (payload : NetworkDevicePayload) (devices : List Device) :
    Except String (List Device × Device) :=
  if devices.any (fun d => d.ipAddress == some payload.ip) then
    Except.error "Device with this IP address already exists."
  else
    let newDevice : Device :=
      { id := createNetworkDeviceId payload.ip
        name := payload.name
        manufacturer := "Manual Entry"
        type := if payload.port == 9100 then DeviceType.Printer else DeviceType.Scanner
        status := DeviceStatus.Ready
        connectionType := ConnectionType.Network
        ipAddress := some payload.ip
        port := some payload.port
        profile := some payload.profile }
    Except.ok (devices ++ [newDevice], newDevice)

/-- The spread-update applied to the matching entry in `editNetworkDevice`
(`device.service.ts` lines 160-167): `...d` with id, name, ipAddress, port and
profile overridden. -/
def editDeviceRecord (d : Device) (payload : NetworkDevicePayload) : Device :=
  { d with
    id := createNetworkDeviceId payload.ip
    name := payload.name
    ipAddress := some payload.ip
    port := some payload.port
    profile := some payload.profile }

/-- `editNetworkDevice` (`device.service.ts` lines 150-175): reject when a
different entry already carries the payload's IP, else publish — in a single
`devices.set` — the list with the matching entry rewritten. -/
def editNetworkDevice (deviceId : String) (payload : NetworkDevicePayload)
    (devices : List Device) : Except String (List Device) :=
  if devices.any (fun d => d.ipAddress == some payload.ip && d.id != deviceId) then
    Except.error "Another device with this IP address already exists."
  else
    Except.ok (devices.map (fun d =>
      if d.id == deviceId then editDeviceRecord d payload else d))

/-- The message thrown by `connectDevice` on failure
(`device.service.ts` line 201). -/
def connectionFailureMsg (cause : String) : String :=
  "Connection failed: " ++ cause ++
    ". The device might be in use by another application."

/-- `connectDevice` (`device.service.ts` lines 177-203).  `openOutcome` and
`selectOutcome` are the results of the hardware calls `rawDevice.open()` and
`rawDevice.selectConfiguration(...)` (error value = `e.message`).  Returns the
registry state after the call together with the call's outcome. -/
def connectDevice (openOutcome selectOutcome : Except String Unit)
    (devices : List Device) (deviceId : String) :
    List Device × Except String Unit :=
  match devices.find? (fun d => d.id == deviceId) with
  | none => (devices, Except.error "Device not found.")
  | some device =>
    if device.connectionType ≠ ConnectionType.USB ∨ device.rawDevice = none then
      (devices, Except.ok ())
    else
      match device.rawDevice with
      | none => (devices, Except.ok ())
      | some raw =>
        let failState := fun (cause : String) =>
          (devices.map (fun d =>
            if d.id == deviceId then { d with status := DeviceStatus.Error } else d),
           Except.error (connectionFailureMsg cause))
        match openOutcome with
        | Except.error cause => failState cause
        | Except.ok _ =>
          let needSelect := raw.configuration = none ∧ raw.configurations.length > 0
          match (if needSelect then selectOutcome else Except.ok ()) with
          | Except.error cause => failState cause
          | Except.ok _ =>
            (devices.map (fun d =>
              if d.id == deviceId then { d with status := DeviceStatus.Connected } else d),
             Except.ok ())

/-- `disconnectDevice` (`device.service.ts` lines 205-220).  `releaseOutcome`
and `closeOutcome` are the results of `rawDevice.releaseInterface(...)` and
`rawDevice.close()`.  Both calls sit inside the same try/catch in the source:
any failure sets the entry's status to Error and throws
'Failed to disconnect cleanly.'. -/
def disconnectDevice (releaseOutcome closeOutcome : Except String Unit)
    (devices : List Device) (deviceId : String) :
    List Device × Except String Unit :=
  match devices.find? (fun d => d.id == deviceId) with
  | none => (devices, Except.ok ())
  | some device =>
    if device.connectionType ≠ ConnectionType.USB ∨ device.rawDevice = none then
      (devices, Except.ok ())
    else
      match device.rawDevice with
      | none => (devices, Except.ok ())
      | some raw =>
        if raw.opened = false then (devices, Except.ok ())
        else
          let needRelease : Bool :=
            match raw.configuration with
            | some cfg => decide (cfg.interfaces.length > 0)
            | none => false
          let failState :=
            (devices.map (fun d =>
              if d.id == deviceId then { d with status := DeviceStatus.Error } else d),
             Except.error "Failed to disconnect cleanly.")
          match (if needRelease then releaseOutcome else Except.ok ()) with
          | Except.error _ => failState
          | Except.ok _ =>
            match closeOutcome with
            | Except.error _ => failState
            | Except.ok _ =>
              (devices.map (fun d =>
                if d.id == deviceId then { d with status := DeviceStatus.Ready } else d),
               Except.ok ())

/-- Split a character list at each dot, the grouping performed by the
anchored dotted-quad regex of `confirmSaveDevice`
(`^(?:[0-9]{1,3}\.){3}[0-9]{1,3}$`). -/
def splitAtDots : List Char → List (List Char)
  | [] => [[]]
  | c :: rest =>
    let gs := splitAtDots rest
    if c = '.' then [] :: gs
    else
      match gs with
      | g :: t => (c :: g) :: t
      | [] => [[c]]

/-- The dotted-quad test of `confirmSaveDevice` (app component line 235):
exactly four dot-separated groups, each of one to three ASCII digits.  Octets
are deliberately not bounded to 255, matching the source regex. -/
def isIpQuad (s : String) : Bool :=
  let groups := splitAtDots s.data
  groups.length == 4 &&
    groups.all (fun g =>
      decide (1 ≤ g.length) && decide (g.length ≤ 3) && g.all Char.isDigit)

/-- The port test of `confirmSaveDevice` (line 236): `parseInt` result not NaN
(`none` models NaN) and within [1, 65535]. -/
def isValidPort (port : Option Int) : Bool :=
  match port with
  | none => false
  | some v => decide (1 ≤ v) && decide (v ≤ 65535)

/-- The validation sequence of `confirmSaveDevice` (app component lines
234-237), applied to the trimmed name, ip and profile and the parsed port:
returns the first error message, or `none` when the payload is valid. -/
def validateDevicePayload (name ip : String) (port : Option Int)
    (profile : String) : Option String :=
  if name = "" then some "Device Name is required."
  else if !isIpQuad ip then some "Please enter a valid IP address."
  else if !isValidPort port then some "Please enter a valid port number (1-65535)."
  else if profile = "" then some "Profile Name is required."
  else none

/-- One troubleshooting step of `TroubleshootingResponse` (`gemini.service.ts`). -/
structure TroubleshootStepRec where
  title : String
  details : List String
deriving DecidableEq, Repr

/-- `TroubleshootingResponse` from `gemini.service.ts`. -/
structure TroubleshootingResponse where
  steps : List TroubleshootStepRec
deriving DecidableEq, Repr

/-- `ExtractedDocumentData` from `gemini.service.ts` (the nine schema fields
plus the id/scanDate the caller adds). -/
structure ExtractedDocumentData where
  id : String := ""
  subscriberName : String := ""
  subscriptionNumber : String := ""
  nationalId : String := ""
  requestDate : String := ""
  projectNumber : String := ""
  officerNumber : String := ""
  postalCode : String := ""
  propertyCode : String := ""
  paymentDate : String := ""
  scanDate : String := ""
deriving DecidableEq, Repr

/-- JS truthiness of `process.env.API_KEY`: unset (`none`) and the empty
string are falsy. -/
def apiKeyConfigured (apiKey : Option String) : Bool :=
  match apiKey with
  | none => false
  | some s => !s.isEmpty

/-- The data-URL match of `gemini.service.ts`
(`/^data:(image\/.+);base64,(.*)$/`): the greedy first group extends to the
last occurrence of ';base64,'; the prefix must be 'data:image/' followed by at
least one character.  Returns (mime, data) on success. -/
def parseImageDataUrl (s : String) : Option (String × String) :=
  let parts := s.splitOn ";base64,"
  if parts.length < 2 then none
  else
    let mimePart := String.intercalate ";base64," parts.dropLast
    let dataPart := parts.getLastD ""
    if mimePart.startsWith "data:image/" && decide (mimePart.length > 11) then
      some (mimePart.drop 5, dataPart)
    else none

/-- The no-key placeholder response of `getTroubleshootingSteps`
(`gemini.service.ts` lines 43-50). -/
def noKeyStepsResponse : TroubleshootingResponse :=
  TroubleshootingResponse.mk [TroubleshootStepRec.mk "API Key Not Configured"
    ["Please set the API_KEY environment variable to use the AI Troubleshooter."]]

/-- The caught-failure response of `getTroubleshootingSteps` (lines 92-97). -/
def stepsFetchFailureResponse : TroubleshootingResponse :=
  TroubleshootingResponse.mk [TroubleshootStepRec.mk "Error Fetching Steps"
    ["Could not get troubleshooting steps from the AI assistant. Please check your network connection and try again."]]

/-- `getTroubleshootingSteps` (`gemini.service.ts` lines 42-99).  `apiOutcome`
is the generative-AI call's result (including response parsing); without a
configured key the placeholder response is returned before any call, and any
call failure is caught and mapped to the error-steps response.  The function
never throws. -/
def getTroubleshootingSteps (apiKey : Option String)
    (apiOutcome : Except String TroubleshootingResponse)
    (deviceName issue : String) : Except String TroubleshootingResponse :=
  if !apiKeyConfigured apiKey then
    Except.ok noKeyStepsResponse
  else
    match deviceName, issue, apiOutcome with
    | _, _, Except.ok r => Except.ok r
    | _, _, Except.error _ => Except.ok stepsFetchFailureResponse

/-- `analyzeImage` (`gemini.service.ts` lines 101-136).  Without a key it
returns a labeled error string; the format check and the AI call sit inside a
try/catch whose handler returns an error string.  Never throws. -/
def analyzeImage (apiKey : Option String) (apiOutcome : Except String String)
    (base64Image prompt : String) : Except String String :=
  if !apiKeyConfigured apiKey then
    Except.ok "Error: API_KEY environment variable not set. Gemini API will not work."
  else
    match parseImageDataUrl base64Image, prompt with
    | none, _ => Except.ok ("Error analyzing image: " ++ "Invalid base64 image string format.")
    | some _, _ =>
      match apiOutcome with
      | Except.ok text => Except.ok text
      | Except.error msg => Except.ok ("Error analyzing image: " ++ msg)

/-- `extractStructuredData` (`gemini.service.ts` lines 138-188).  Without a
key it THROWS (`throw new Error(...)` at line 140) — modelled as
`Except.error`.  The format check also throws uncaught; only the AI call is
wrapped in try/catch, whose handler rethrows a fixed message. -/
def extractStructuredData (apiKey : Option String)
    (apiOutcome : Except String ExtractedDocumentData)
    (base64Image : String) : Except String ExtractedDocumentData :=
  if !apiKeyConfigured apiKey then
    Except.error "API_KEY environment variable not set. Gemini API will not work."
  else
    match parseImageDataUrl base64Image with
    | none => Except.error "Invalid base64 image string format."
    | some _ =>
      match apiOutcome with
      | Except.ok d => Except.ok d
      | Except.error _ =>
        Except.error "Failed to extract data from the document. The AI model could not process the request."

/-- Registry well-formedness: every Network entry's id derives from its (valid
dotted-quad) address, every USB entry's id derives from its hardware handle,
and ids are pairwise distinct.  These are the invariants §3 of the spec
states the service maintains. -/
def wellFormedDevice (d : Device) : Bool :=
  match d.connectionType with
  | ConnectionType.Network =>
    match d.ipAddress with
    | some ip => d.id == createNetworkDeviceId ip && isIpQuad ip
    | none => false
  | ConnectionType.USB =>
    match d.rawDevice with
    | some u => d.id == createDeviceId u
    | none => false

/-- Well-formed registry: well-formed entries with pairwise-distinct ids. -/
def wellFormedRegistry (l : List Device) : Prop :=
  (∀ d ∈ l, wellFormedDevice d = true) ∧ (l.map Device.id).Nodup

/-- Sample USB configuration with a single printer-class interface. -/
def sampleUsbConfig : USBConfiguration :=
  USBConfiguration.mk 1 [USBInterface.mk 0 [USBAlternateInterface.mk 7]]

/-- Sample raw USB handle used by concrete witnesses: a closed printer-class
device. -/
def sampleUsbRaw : USBDevice where
  vendorId := 1193
  productId := 8211
  manufacturerName := some "HP"
  productName := some "HP LaserJet Printer"
  serialNumber := some "SN42"
  opened := false
  configuration := none
  configurations := [sampleUsbConfig]

/-- Sample raw USB handle that is open and exposes an active configuration
with one interface (used by the disconnect witnesses). -/
def sampleOpenUsbRaw : USBDevice where
  vendorId := 1193
  productId := 8211
  manufacturerName := some "HP"
  productName := some "HP LaserJet Printer"
  serialNumber := some "SN42"
  opened := true
  configuration := some sampleUsbConfig
  configurations := [sampleUsbConfig]

/-- Sample network device: a scanner at 192.168.1.150. -/
def sampleNetDevice : Device where
  id := createNetworkDeviceId "192.168.1.150"
  name := "Office Scanner"
  manufacturer := "Manual Entry"
  type := DeviceType.Scanner
  status := DeviceStatus.Ready
  connectionType := ConnectionType.Network
  ipAddress := some "192.168.1.150"
  port := some 80
  profile := some "Office"

/-- Sample edit payload moving `sampleNetDevice` to a new address. -/
def samplePayloadNewIp : NetworkDevicePayload where
  ip := "10.0.0.7"
  port := 9100
  name := "Office Scanner"
  profile := "Office"

/-- Sample edit payload keeping the address but changing port and profile. -/
def samplePayloadSameIp : NetworkDevicePayload where
  ip := "192.168.1.150"
  port := 9100
  name := "Office Scanner"
  profile := "Lobby"

/-- Occurrence count of a device id in a registry list. -/
def cntId (x : String) (l : List Device) : Nat :=
  l.countP (fun d => d.id == x)

/-- Sample add payload: the default form values of the app component. -/
def sampleAddPayload : NetworkDevicePayload :=
  NetworkDevicePayload.mk "192.168.1.150" 9100 "HP LaserJet Pro" "Office Printer"

/-- The device `addNetworkDevice` constructs from `sampleAddPayload`. -/
def sampleAddedDevice : Device where
  id := "net-192-168-1-150"
  name := "HP LaserJet Pro"
  manufacturer := "Manual Entry"
  type := DeviceType.Printer
  status := DeviceStatus.Ready
  connectionType := ConnectionType.Network
  ipAddress := some "192.168.1.150"
  port := some 9100
  profile := some "Office Printer"

/-! ## Helper lemmas -/

theorem mapUSB_id (u : USBDevice) : (mapUSBDeviceToDevice u).id = createDeviceId u := rfl

theorem createDeviceId_triple (u1 u2 : USBDevice)
    (hv : u2.vendorId = u1.vendorId) (hp : u2.productId = u1.productId)
    (hs : u2.serialNumber = u1.serialNumber) :
    createDeviceId u2 = createDeviceId u1 := by
  simp [createDeviceId, hv, hp, hs]

theorem handleConnect_any_id (l : List Device) (u : USBDevice) :
    (handleConnect l u).any (fun d => d.id == createDeviceId u) = true := by
  cases hany : l.any (fun d => d.id == (mapUSBDeviceToDevice u).id) with
  | true =>
    simp only [handleConnect]
    rw [hany]
    simpa [mapUSB_id] using hany
  | false =>
    simp only [handleConnect]
    rw [hany]
    simp [mapUSB_id]

theorem handleConnect_of_any (l : List Device) (u : USBDevice)
    (h : l.any (fun d => d.id == createDeviceId u) = true) :
    handleConnect l u = l := by
  have h' : l.any (fun d => d.id == (mapUSBDeviceToDevice u).id) = true := by
    simpa [mapUSB_id] using h
  simp only [handleConnect]
  rw [h']
  simp

theorem cntId_eq_zero_of_any_false (l : List Device) (x : String)
    (h : l.any (fun d => d.id == x) = false) : cntId x l = 0 := by
  rw [cntId, List.countP_eq_zero]
  intro a ha
  have := List.any_eq_false.mp h a ha
  simpa using this

theorem cntId_handleConnect_le_one (l : List Device) (u : USBDevice)
    (hinv : ∀ x, cntId x l ≤ 1) : ∀ x, cntId x (handleConnect l u) ≤ 1 := by
  intro x
  cases hany : l.any (fun d => d.id == (mapUSBDeviceToDevice u).id) with
  | true =>
    simp only [handleConnect]
    rw [hany]
    simpa using hinv x
  | false =>
    simp only [handleConnect]
    rw [hany]
    simp only [Bool.false_eq_true, if_false, cntId, List.countP_append,
      List.countP_cons, List.countP_nil]
    by_cases hx : ((mapUSBDeviceToDevice u).id == x) = true
    · have hxx : (mapUSBDeviceToDevice u).id = x := by simpa using hx
      have h0 : cntId x l = 0 := by
        apply cntId_eq_zero_of_any_false
        rw [← hxx]
        exact hany
      rw [cntId] at h0
      simp [h0, hx]
    · have h1 := hinv x
      rw [cntId] at h1
      simp only [Bool.not_eq_true] at hx
      simp [hx]
      omega

theorem applyConnects_cnt_le_one (evs : List USBDevice) :
    ∀ x, cntId x (applyConnects evs) ≤ 1 := by
  have aux : ∀ (es : List USBDevice) (l : List Device),
      (∀ x, cntId x l ≤ 1) → ∀ x, cntId x (es.foldl handleConnect l) ≤ 1 := by
    intro es
    induction es with
    | nil => intro l h x; simpa using h x
    | cons e rest ih =>
      intro l h x
      exact ih (handleConnect l e) (cntId_handleConnect_le_one l e h) x
  exact aux evs [] (by intro x; simp [cntId])

theorem cntId_handleConnect_eq_one (l : List Device) (u : USBDevice)
    (hle : cntId (createDeviceId u) l ≤ 1) :
    cntId (createDeviceId u) (handleConnect l u) = 1 := by
  cases hany : l.any (fun d => d.id == (mapUSBDeviceToDevice u).id) with
  | true =>
    have heq : handleConnect l u = l :=
      handleConnect_of_any l u (by simpa [mapUSB_id] using hany)
    have hpos : 0 < cntId (createDeviceId u) l := by
      rw [cntId, List.countP_pos_iff]
      rcases List.any_eq_true.mp hany with ⟨a, ha, hpa⟩
      exact ⟨a, ha, by simpa [mapUSB_id] using hpa⟩
    rw [heq]
    omega
  | false =>
    simp only [handleConnect]
    rw [hany]
    simp only [Bool.false_eq_true, if_false, cntId, List.countP_append,
      List.countP_cons, List.countP_nil]
    have h0 : cntId (createDeviceId u) l = 0 := by
      apply cntId_eq_zero_of_any_false
      simpa [mapUSB_id] using hany
    rw [cntId] at h0
    simp [h0, mapUSB_id]

theorem find?_of_mem_nodup (l : List Device) (d : Device)
    (hmem : d ∈ l) (hnodup : (l.map Device.id).Nodup) :
    l.find? (fun e => e.id == d.id) = some d := by
  induction l with
  | nil => simp at hmem
  | cons a t ih =>
    have hnodup' : (a.id :: t.map Device.id).Nodup := by simpa using hnodup
    have hn := List.nodup_cons.mp hnodup'
    rcases List.mem_cons.mp hmem with h | h
    · subst h
      exact List.find?_cons_of_pos _ (by simp)
    · have hne : a.id ≠ d.id := by
        intro heq
        exact hn.1 (heq ▸ List.mem_map_of_mem Device.id h)
      rw [List.find?_cons_of_neg _ (by simp [hne])]
      exact ih h hn.2

theorem cntId_eq_count (x : String) (l : List Device) :
    cntId x l = (l.map Device.id).count x := by
  rw [cntId, List.count_eq_countP, List.countP_map]
  rfl

theorem cntId_of_mem_nodup (l : List Device) (d : Device)
    (hmem : d ∈ l) (hnodup : (l.map Device.id).Nodup) :
    cntId d.id l = 1 := by
  rw [cntId_eq_count]
  exact List.count_eq_one_of_mem hnodup (List.mem_map_of_mem Device.id hmem)

theorem cntId_map_id_preserving (l : List Device) (x : String) (f : Device → Device)
    (hf : ∀ e, (f e).id = e.id) : cntId x (l.map f) = cntId x l := by
  rw [cntId, List.countP_map, cntId]
  have hfun : ((fun d => d.id == x) ∘ f) = fun d => d.id == x := by
    funext a
    simp [Function.comp, hf]
  rw [hfun]

theorem dotToDash_inj {a b : Char} (ha : a ≠ '-') (hb : b ≠ '-')
    (h : dotToDash a = dotToDash b) : a = b := by
  unfold dotToDash at h
  by_cases h1 : a = '.'
  · by_cases h2 : b = '.'
    · rw [h1, h2]
    · rw [if_pos h1, if_neg h2] at h
      exact absurd h.symm hb
  · by_cases h2 : b = '.'
    · rw [if_neg h1, if_pos h2] at h
      exact absurd h ha
    · rw [if_neg h1, if_neg h2] at h
      exact h

theorem map_dotToDash_inj : ∀ (l1 l2 : List Char),
    (∀ c ∈ l1, c ≠ '-') → (∀ c ∈ l2, c ≠ '-') →
    l1.map dotToDash = l2.map dotToDash → l1 = l2 := by
  intro l1
  induction l1 with
  | nil =>
    intro l2 _ _ h
    cases l2 with
    | nil => rfl
    | cons b s => simp at h
  | cons a t ih =>
    intro l2 h1 h2 h
    cases l2 with
    | nil => simp at h
    | cons b s =>
      simp only [List.map_cons, List.cons.injEq] at h
      have hab := dotToDash_inj (h1 a (by simp)) (h2 b (by simp)) h.1
      rw [hab, ih s (fun c hc => h1 c (by simp [hc])) (fun c hc => h2 c (by simp [hc])) h.2]

theorem mem_splitAtDots (l : List Char) (c : Char) (hc : c ∈ l) :
    c = '.' ∨ ∃ g ∈ splitAtDots l, c ∈ g := by
  induction l with
  | nil => simp at hc
  | cons a t ih =>
    rcases List.mem_cons.mp hc with h | h
    · subst h
      by_cases ha : c = '.'
      · exact Or.inl ha
      · right
        simp only [splitAtDots]
        rw [if_neg ha]
        cases hgs : splitAtDots t with
        | nil => exact ⟨[c], by simp, by simp⟩
        | cons g gt => exact ⟨c :: g, by simp, by simp⟩
    · rcases ih h with h' | ⟨g, hg, hcg⟩
      · exact Or.inl h'
      · right
        simp only [splitAtDots]
        by_cases ha : a = '.'
        · rw [if_pos ha]
          exact ⟨g, by simp [hg], hcg⟩
        · rw [if_neg ha]
          cases hgs : splitAtDots t with
          | nil =>
            rw [hgs] at hg
            simp at hg
          | cons g0 gt =>
            rw [hgs] at hg
            rcases List.mem_cons.mp hg with hgg | hgg
            · exact ⟨a :: g0, by simp, by simp [hgg ▸ hcg]⟩
            · exact ⟨g, by simp [hgg], hcg⟩

theorem isIpQuad_no_dash (s : String) (h : isIpQuad s = true) :
    ∀ c ∈ s.data, c ≠ '-' := by
  intro c hc heq
  simp only [isIpQuad, Bool.and_eq_true, List.all_eq_true] at h
  rcases mem_splitAtDots s.data c hc with h' | ⟨g, hg, hcg⟩
  · rw [heq] at h'
    exact absurd h' (by decide)
  · have hgd := h.2 g hg
    simp only [Bool.and_eq_true, List.all_eq_true] at hgd
    have hd := hgd.2 c hcg
    rw [heq] at hd
    exact absurd hd (by decide)

theorem createNetworkDeviceId_inj (ip1 ip2 : String)
    (h1 : isIpQuad ip1 = true) (h2 : isIpQuad ip2 = true)
    (h : createNetworkDeviceId ip1 = createNetworkDeviceId ip2) : ip1 = ip2 := by
  have hd2 : "net-".data ++ ip1.data.map dotToDash
      = "net-".data ++ ip2.data.map dotToDash := congrArg String.data h
  have hmap := List.append_cancel_left hd2
  exact String.ext
    (map_dotToDash_inj ip1.data ip2.data (isIpQuad_no_dash ip1 h1) (isIpQuad_no_dash ip2 h2) hmap)

theorem usbId_ne_netId (u : USBDevice) (ip : String) :
    createDeviceId u ≠ createNetworkDeviceId ip := by
  intro h
  have hu : (createDeviceId u).data.head? = some 'u' := rfl
  have hn : (createNetworkDeviceId ip).data.head? = some 'n' := rfl
  rw [h, hn] at hu
  exact absurd hu (by decide)

/-! ## Claim theorems -/

/-- C1: delivering the same USB connect notification twice (same
vendorId/productId/serialNumber, hence the same derived id) onto any registry
reached by a sequence of connect notifications yields exactly one entry for
that id, and the second delivery is a no-op leaving the device list
unchanged (idempotent upsert of `handleConnect`). -/
theorem usbConnect_idempotent_upsert (evs : List USBDevice) (u1 u2 : USBDevice)
    (hv : u2.vendorId = u1.vendorId) (hp : u2.productId = u1.productId)
    (hs : u2.serialNumber = u1.serialNumber) :
    handleConnect (handleConnect (applyConnects evs) u1) u2
      = handleConnect (applyConnects evs) u1 ∧
    cntId (createDeviceId u1) (handleConnect (applyConnects evs) u1) = 1 := by
  have hid : createDeviceId u2 = createDeviceId u1 :=
    createDeviceId_triple u1 u2 hv hp hs
  constructor
  · apply handleConnect_of_any
    rw [hid]
    exact handleConnect_any_id (applyConnects evs) u1
  · exact cntId_handleConnect_eq_one _ u1 (applyConnects_cnt_le_one evs _)

/-- Witness for C1 at a concrete connect sequence. -/
theorem usbConnect_idempotent_upsert_witness :
    handleConnect (handleConnect (applyConnects []) sampleUsbRaw) sampleUsbRaw
      = handleConnect (applyConnects []) sampleUsbRaw ∧
    cntId (createDeviceId sampleUsbRaw) (handleConnect (applyConnects []) sampleUsbRaw) = 1 :=
  usbConnect_idempotent_upsert [] sampleUsbRaw sampleUsbRaw rfl rfl rfl

/-- C3: a successful `addNetworkDevice` followed by a second add with the
same address makes the second call fail with the duplicate-address Conflict
error and leaves exactly one registry entry with that address.  (The second
add here observes the state the first add published on resolution; the spec
requires callers to guard in-flight overlap.) -/
theorem addNetworkDevice_duplicate_conflict (p q : NetworkDevicePayload)
    (devices result : List Device) (d : Device)
    (hip : q.ip = p.ip)
    (h1 : addNetworkDevice p devices = Except.ok (result, d)) :
    addNetworkDevice q result = Except.error "Device with this IP address already exists." ∧
    result.countP (fun e => e.ipAddress == some p.ip) = 1 := by
  cases hany : devices.any (fun e => e.ipAddress == some p.ip) with
  | true =>
    simp only [addNetworkDevice] at h1
    rw [hany] at h1
    simp at h1
  | false =>
    simp only [addNetworkDevice] at h1
    rw [hany] at h1
    simp only [Bool.false_eq_true, if_false, Except.ok.injEq, Prod.mk.injEq] at h1
    obtain ⟨hres, hd⟩ := h1
    have h0 : devices.countP (fun e => e.ipAddress == some p.ip) = 0 := by
      rw [List.countP_eq_zero]
      intro a ha
      have := List.any_eq_false.mp hany a ha
      simpa using this
    have hguard : result.any (fun e => e.ipAddress == some q.ip) = true := by
      rw [← hres]
      simp [List.any_append, hip]
    constructor
    · simp only [addNetworkDevice]
      rw [hguard]
      simp
    · rw [← hres, List.countP_append, h0]
      simp

/-- Witness for C3 at the app's default form payload. -/
theorem addNetworkDevice_duplicate_conflict_witness :
    addNetworkDevice sampleAddPayload [sampleAddedDevice]
      = Except.error "Device with this IP address already exists." ∧
    [sampleAddedDevice].countP (fun e => e.ipAddress == some sampleAddPayload.ip) = 1 :=
  addNetworkDevice_duplicate_conflict sampleAddPayload sampleAddPayload []
    [sampleAddedDevice] sampleAddedDevice rfl (by rfl)

theorem wellFormedDevice_network (d : Device) (h : wellFormedDevice d = true)
    (hnet : d.connectionType = ConnectionType.Network) :
    ∃ ip, d.ipAddress = some ip ∧ d.id = createNetworkDeviceId ip ∧ isIpQuad ip = true := by
  simp only [wellFormedDevice, hnet] at h
  cases hip : d.ipAddress with
  | none =>
    rw [hip] at h
    simp at h
  | some ip =>
    rw [hip] at h
    simp only [Bool.and_eq_true, beq_iff_eq] at h
    exact ⟨ip, rfl, h.1, h.2⟩

theorem wellFormedDevice_usb (d : Device) (h : wellFormedDevice d = true)
    (husb : d.connectionType = ConnectionType.USB) :
    ∃ u, d.rawDevice = some u ∧ d.id = createDeviceId u := by
  simp only [wellFormedDevice, husb] at h
  cases hraw : d.rawDevice with
  | none =>
    rw [hraw] at h
    simp at h
  | some u =>
    rw [hraw] at h
    simp only [beq_iff_eq] at h
    exact ⟨u, rfl, h⟩

theorem wf_id_ne_netId (devices : List Device)
    (hall : ∀ e ∈ devices, wellFormedDevice e = true)
    (y : Device) (hy : y ∈ devices) (p : NetworkDevicePayload)
    (hipOk : isIpQuad p.ip = true) (hyip : y.ipAddress ≠ some p.ip) :
    y.id ≠ createNetworkDeviceId p.ip := by
  intro h
  cases hconn : y.connectionType with
  | USB =>
    obtain ⟨u, _, hid⟩ := wellFormedDevice_usb y (hall y hy) hconn
    exact usbId_ne_netId u p.ip (hid ▸ h)
  | Network =>
    obtain ⟨ipy, hipy, hid, hq⟩ := wellFormedDevice_network y (hall y hy) hconn
    have hipe : ipy = p.ip := createNetworkDeviceId_inj ipy p.ip hq hipOk (hid ▸ h)
    exact hyip (by rw [hipy, hipe])

/-- C2: editing a network device to a different (valid) address replaces its
entry in the single registry state `editNetworkDevice` publishes: looking up
the old id returns absent and looking up the id derived from the new address
returns the edited device.  The replacement is one `devices.set`, so no
intermediate registry state (in particular none lacking the device) is ever
observable. -/
theorem editNetworkDevice_atomic_replace
    (devices result : List Device) (d : Device) (p : NetworkDevicePayload)
    (hwf : wellFormedRegistry devices)
    (hmem : d ∈ devices)
    (hnet : d.connectionType = ConnectionType.Network)
    (hipOk : isIpQuad p.ip = true)
    (hipNe : d.ipAddress ≠ some p.ip)
    (hok : editNetworkDevice d.id p devices = Except.ok result) :
    result.find? (fun e => e.id == d.id) = none ∧
    result.find? (fun e => e.id == createNetworkDeviceId p.ip)
      = some (editDeviceRecord d p) := by
  obtain ⟨hall, hnodup⟩ := hwf
  obtain ⟨oldIp, hipA, hdid, hipq⟩ := wellFormedDevice_network d (hall d hmem) hnet
  have hne_ip : oldIp ≠ p.ip := fun heq => hipNe (by rw [hipA, heq])
  have hnewOld : createNetworkDeviceId p.ip ≠ d.id := by
    intro h
    exact hne_ip (createNetworkDeviceId_inj oldIp p.ip hipq hipOk (by rw [← hdid]; exact h.symm))
  cases hany : devices.any (fun e => e.ipAddress == some p.ip && e.id != d.id) with
  | true =>
    simp only [editNetworkDevice] at hok
    rw [hany] at hok
    simp at hok
  | false =>
    simp only [editNetworkDevice] at hok
    rw [hany] at hok
    simp only [Bool.false_eq_true, if_false, Except.ok.injEq] at hok
    have hguard := List.any_eq_false.mp hany
    constructor
    · rw [← hok, List.find?_eq_none]
      intro x hx
      rcases List.mem_map.mp hx with ⟨y, hy, hfy⟩
      by_cases hyid : (y.id == d.id) = true
      · rw [if_pos hyid] at hfy
        rw [← hfy]
        simp only [editDeviceRecord]
        simpa using hnewOld
      · rw [if_neg hyid] at hfy
        rw [← hfy]
        exact hyid
    · obtain ⟨l1, l2, hsplit⟩ := List.append_of_mem hmem
      subst hsplit
      rw [← hok, List.map_append, List.map_cons, List.find?_append]
      have hnodup' : (l1.map Device.id ++ d.id :: l2.map Device.id).Nodup := by
        simpa using hnodup
      have hdisj := (List.nodup_append.mp hnodup').2.2
      have hl1ne : ∀ y ∈ l1, y.id ≠ d.id := by
        intro y hy heq
        exact hdisj (List.mem_map_of_mem Device.id hy) (by simp [heq])
      have hl1 : (l1.map (fun e =>
          if e.id == d.id then editDeviceRecord e p else e)).find?
            (fun e => e.id == createNetworkDeviceId p.ip) = none := by
        rw [List.find?_eq_none]
        intro x hx
        rcases List.mem_map.mp hx with ⟨y, hy, hfy⟩
        have hyne : y.id ≠ d.id := hl1ne y hy
        rw [if_neg (by simpa using hyne)] at hfy
        have hymem : y ∈ l1 ++ d :: l2 := List.mem_append.mpr (Or.inl hy)
        have hyip : y.ipAddress ≠ some p.ip := by
          have hg := hguard y hymem
          intro hceq
          apply hg
          simp [hceq, hyne]
        have := wf_id_ne_netId (l1 ++ d :: l2) hall y hymem p hipOk hyip
        rw [← hfy]
        simpa using this
      rw [hl1]
      have hfd : ((if d.id == d.id then editDeviceRecord d p else d) :: l2.map
          (fun e => if e.id == d.id then editDeviceRecord e p else e)).find?
            (fun e => e.id == createNetworkDeviceId p.ip)
          = some (editDeviceRecord d p) := by
        rw [if_pos (by simp)]
        exact List.find?_cons_of_pos _ (by simp [editDeviceRecord])
      rw [hfd]
      rfl

/-- Witness for C2: moving the sample network scanner to a new address. -/
theorem editNetworkDevice_atomic_replace_witness :
    [editDeviceRecord sampleNetDevice samplePayloadNewIp].find?
        (fun e => e.id == sampleNetDevice.id) = none ∧
    [editDeviceRecord sampleNetDevice samplePayloadNewIp].find?
        (fun e => e.id == createNetworkDeviceId samplePayloadNewIp.ip)
      = some (editDeviceRecord sampleNetDevice samplePayloadNewIp) :=
  editNetworkDevice_atomic_replace [sampleNetDevice]
    [editDeviceRecord sampleNetDevice samplePayloadNewIp] sampleNetDevice samplePayloadNewIp
    (show (∀ e ∈ [sampleNetDevice], wellFormedDevice e = true) ∧
        ([sampleNetDevice].map Device.id).Nodup from ⟨by decide, by decide⟩)
    (by simp) rfl (by decide) (by decide) (by rfl)

/-- C4: when any step of the USB connect sequence fails — `open()`, or the
`selectConfiguration` performed when no configuration is active and one is
available — `connectDevice` sets that device's status to Error, rejects with
the Connection error message built from the underlying cause, and the
registry still holds exactly one entry for the id. -/
theorem connectDevice_failure_keeps_entry (openOut selectOut : Except String Unit)
    (cause : String) (devices : List Device) (d : Device) (u : USBDevice)
    (hmem : d ∈ devices) (hnodup : (devices.map Device.id).Nodup)
    (htype : d.connectionType = ConnectionType.USB) (hraw : d.rawDevice = some u)
    (hfail : openOut = Except.error cause ∨
      (openOut = Except.ok () ∧ u.configuration = none ∧ u.configurations.length > 0 ∧
        selectOut = Except.error cause)) :
    (connectDevice openOut selectOut devices d.id).2
        = Except.error (connectionFailureMsg cause) ∧
    cntId d.id (connectDevice openOut selectOut devices d.id).1 = 1 ∧
    ∀ e ∈ (connectDevice openOut selectOut devices d.id).1, e.id = d.id →
      e.status = DeviceStatus.Error := by
  have hfind := find?_of_mem_nodup devices d hmem hnodup
  have hcompute : connectDevice openOut selectOut devices d.id
      = (devices.map (fun e =>
          if e.id == d.id then { e with status := DeviceStatus.Error } else e),
         Except.error (connectionFailureMsg cause)) := by
    rcases hfail with hopen | ⟨hopen, hconf, hlen, hsel⟩
    · subst hopen
      simp [connectDevice, hfind, htype, hraw]
    · subst hopen
      subst hsel
      simp [connectDevice, hfind, htype, hraw, hconf, hlen]
  rw [hcompute]
  refine ⟨rfl, ?_, ?_⟩
  · have hpres : ∀ e : Device,
        ((fun e => if e.id == d.id then { e with status := DeviceStatus.Error } else e) e).id
          = e.id := by
      intro e
      by_cases h : (e.id == d.id) = true
      · simp [h]
      · simp [h]
    rw [cntId_map_id_preserving devices d.id _ hpres]
    exact cntId_of_mem_nodup devices d hmem hnodup
  · intro e he heid
    rcases List.mem_map.mp he with ⟨y, hy, hfy⟩
    by_cases h : (y.id == d.id) = true
    · rw [if_pos h] at hfy
      rw [← hfy]
    · rw [if_neg h] at hfy
      rw [← hfy] at heid
      exact absurd heid (by simpa using h)

/-- Witness for C4: the sample USB printer whose `open()` fails. -/
theorem connectDevice_failure_keeps_entry_witness :
    (connectDevice (Except.error "Access denied") (Except.ok ())
        [mapUSBDeviceToDevice sampleUsbRaw] (mapUSBDeviceToDevice sampleUsbRaw).id).2
      = Except.error (connectionFailureMsg "Access denied") ∧
    cntId (mapUSBDeviceToDevice sampleUsbRaw).id
      (connectDevice (Except.error "Access denied") (Except.ok ())
        [mapUSBDeviceToDevice sampleUsbRaw] (mapUSBDeviceToDevice sampleUsbRaw).id).1 = 1 ∧
    ∀ e ∈ (connectDevice (Except.error "Access denied") (Except.ok ())
        [mapUSBDeviceToDevice sampleUsbRaw] (mapUSBDeviceToDevice sampleUsbRaw).id).1,
      e.id = (mapUSBDeviceToDevice sampleUsbRaw).id → e.status = DeviceStatus.Error :=
  connectDevice_failure_keeps_entry (Except.error "Access denied") (Except.ok ())
    "Access denied" [mapUSBDeviceToDevice sampleUsbRaw] (mapUSBDeviceToDevice sampleUsbRaw)
    sampleUsbRaw (by simp) (by decide) rfl rfl (Or.inl rfl)

/-- C5: a Network device's status is Ready for its whole lifetime: it is
Ready at creation by `addNetworkDevice`, statuses are preserved pointwise by
`editNetworkDevice`, and `connectDevice` / `disconnectDevice` applied to a
Network registry entry are non-erroring no-ops that leave the registry — and
hence the device's status and every other field — unchanged. -/
theorem networkDevice_status_fixed_ready :
    (∀ p devices result d, addNetworkDevice p devices = Except.ok (result, d) →
       d.status = DeviceStatus.Ready) ∧
    (∀ deviceId p devices result, editNetworkDevice deviceId p devices = Except.ok result →
       result.map Device.status = devices.map Device.status) ∧
    (∀ openOut selectOut devices dv,
       devices.find? (fun e => e.id == dv.id) = some dv →
       dv.connectionType = ConnectionType.Network →
       connectDevice openOut selectOut devices dv.id = (devices, Except.ok ())) ∧
    (∀ releaseOut closeOut devices dv,
       devices.find? (fun e => e.id == dv.id) = some dv →
       dv.connectionType = ConnectionType.Network →
       disconnectDevice releaseOut closeOut devices dv.id = (devices, Except.ok ())) := by
  refine ⟨?_, ?_, ?_, ?_⟩
  · intro p devices result d h
    cases hany : devices.any (fun e => e.ipAddress == some p.ip) with
    | true =>
      simp only [addNetworkDevice] at h
      rw [hany] at h
      simp at h
    | false =>
      simp only [addNetworkDevice] at h
      rw [hany] at h
      simp only [Bool.false_eq_true, if_false, Except.ok.injEq, Prod.mk.injEq] at h
      rw [← h.2]
  · intro deviceId p devices result h
    cases hany : devices.any (fun e => e.ipAddress == some p.ip && e.id != deviceId) with
    | true =>
      simp only [editNetworkDevice] at h
      rw [hany] at h
      simp at h
    | false =>
      simp only [editNetworkDevice] at h
      rw [hany] at h
      simp only [Bool.false_eq_true, if_false, Except.ok.injEq] at h
      rw [← h, List.map_map]
      apply List.map_congr_left
      intro a _
      by_cases hh : (a.id == deviceId) = true
      · simp [Function.comp, hh, editDeviceRecord]
      · simp [Function.comp, hh]
  · intro openOut selectOut devices dv hfind hnet
    simp [connectDevice, hfind, hnet]
  · intro releaseOut closeOut devices dv hfind hnet
    simp [disconnectDevice, hfind, hnet]

/-- Witness for C5 at the sample network devices. -/
theorem networkDevice_status_fixed_ready_witness :
    sampleAddedDevice.status = DeviceStatus.Ready ∧
    [editDeviceRecord sampleNetDevice samplePayloadSameIp].map Device.status
      = [sampleNetDevice].map Device.status ∧
    connectDevice (Except.ok ()) (Except.ok ()) [sampleNetDevice] sampleNetDevice.id
      = ([sampleNetDevice], Except.ok ()) ∧
    disconnectDevice (Except.ok ()) (Except.ok ()) [sampleNetDevice] sampleNetDevice.id
      = ([sampleNetDevice], Except.ok ()) :=
  ⟨networkDevice_status_fixed_ready.1 sampleAddPayload [] [sampleAddedDevice]
      sampleAddedDevice (by rfl),
   networkDevice_status_fixed_ready.2.1 sampleNetDevice.id samplePayloadSameIp
      [sampleNetDevice] [editDeviceRecord sampleNetDevice samplePayloadSameIp] (by rfl),
   networkDevice_status_fixed_ready.2.2.1 (Except.ok ()) (Except.ok ())
      [sampleNetDevice] sampleNetDevice (by decide) rfl,
   networkDevice_status_fixed_ready.2.2.2 (Except.ok ()) (Except.ok ())
      [sampleNetDevice] sampleNetDevice (by decide) rfl⟩

/-- C6: `confirmSaveDevice` validates in the fixed order name → address →
port → profile, failing on the first violation with the message identifying
that field and no aggregation; the dotted-quad pattern does not bound octets
to 255 (999.1.1.1 passes), and port 70000 fails with the port message. -/
theorem validation_first_violation_order :
    (∀ ip port profile, validateDevicePayload "" ip port profile
        = some "Device Name is required.") ∧
    (∀ name ip port profile, name ≠ "" → isIpQuad ip = false →
       validateDevicePayload name ip port profile
         = some "Please enter a valid IP address.") ∧
    (∀ name ip port profile, name ≠ "" → isIpQuad ip = true → isValidPort port = false →
       validateDevicePayload name ip port profile
         = some "Please enter a valid port number (1-65535).") ∧
    (∀ name ip port, name ≠ "" → isIpQuad ip = true → isValidPort port = true →
       validateDevicePayload name ip port "" = some "Profile Name is required.") ∧
    (∀ name ip profile, name ≠ "" → isIpQuad ip = true →
       validateDevicePayload name ip (some 70000) profile
         = some "Please enter a valid port number (1-65535).") ∧
    isIpQuad "999.1.1.1" = true := by
  refine ⟨?_, ?_, ?_, ?_, ?_, by decide⟩
  · intro ip port profile
    simp [validateDevicePayload]
  · intro name ip port profile hn hip
    simp [validateDevicePayload, hn, hip]
  · intro name ip port profile hn hip hport
    simp [validateDevicePayload, hn, hip, hport]
  · intro name ip port hn hip hport
    simp [validateDevicePayload, hn, hip, hport]
  · intro name ip profile hn hip
    have hport : isValidPort (some 70000) = false := by decide
    simp [validateDevicePayload, hn, hip, hport]

/-- Witness for C6: the app's default name/address/profile with port 70000. -/
theorem validation_first_violation_order_witness :
    validateDevicePayload "HP LaserJet Pro" "192.168.1.150" (some 70000) "Office Printer"
      = some "Please enter a valid port number (1-65535)." :=
  validation_first_violation_order.2.2.2.2.1 "HP LaserJet Pro" "192.168.1.150"
    "Office Printer" (by decide) (by decide)

/-- C9: `createNetworkDeviceId` is a pure function of the address alone:
equal addresses give equal ids; an edit that keeps the address (changing only
port/profile) keeps the id; and for valid dotted-quad addresses, changing the
address changes the id. -/
theorem deriveNetworkId_pure_function :
    (∀ ip1 ip2 : String, ip1 = ip2 → createNetworkDeviceId ip1 = createNetworkDeviceId ip2) ∧
    (∀ (d : Device) (p : NetworkDevicePayload) (ip : String),
       d.ipAddress = some ip → d.id = createNetworkDeviceId ip → p.ip = ip →
       (editDeviceRecord d p).id = d.id) ∧
    (∀ ip1 ip2 : String, isIpQuad ip1 = true → isIpQuad ip2 = true → ip1 ≠ ip2 →
       createNetworkDeviceId ip1 ≠ createNetworkDeviceId ip2) := by
  refine ⟨?_, ?_, ?_⟩
  · intro ip1 ip2 h
    rw [h]
  · intro d p ip hipa hid hp
    simp [editDeviceRecord, hp, hid]
  · intro ip1 ip2 h1 h2 hne h
    exact hne (createNetworkDeviceId_inj ip1 ip2 h1 h2 h)

/-- Witness for C9: port/profile-only edit keeps the sample device's id;
distinct sample addresses give distinct ids. -/
theorem deriveNetworkId_pure_function_witness :
    (editDeviceRecord sampleNetDevice samplePayloadSameIp).id = sampleNetDevice.id ∧
    createNetworkDeviceId "192.168.1.150" ≠ createNetworkDeviceId "10.0.0.7" :=
  ⟨deriveNetworkId_pure_function.2.1 sampleNetDevice samplePayloadSameIp "192.168.1.150"
      rfl rfl rfl,
   deriveNetworkId_pure_function.2.2 "192.168.1.150" "10.0.0.7"
      (by decide) (by decide) (by decide)⟩

/-- C10: `editNetworkDevice` rewrites only id, name, ipAddress, port and
profile: status, manufacturer, connectionType, the device type and the raw
handle are preserved pointwise, so the type is never re-inferred from the new
port — while `addNetworkDevice` infers Printer exactly when port = 9100. -/
theorem editNetworkDevice_preserves_other_fields :
    (∀ deviceId p devices result, editNetworkDevice deviceId p devices = Except.ok result →
       result.map Device.status = devices.map Device.status ∧
       result.map Device.manufacturer = devices.map Device.manufacturer ∧
       result.map Device.connectionType = devices.map Device.connectionType ∧
       result.map Device.type = devices.map Device.type ∧
       result.map Device.rawDevice = devices.map Device.rawDevice) ∧
    (∀ p devices result d, addNetworkDevice p devices = Except.ok (result, d) →
       p.port = 9100 → d.type = DeviceType.Printer) := by
  constructor
  · intro deviceId p devices result h
    cases hany : devices.any (fun e => e.ipAddress == some p.ip && e.id != deviceId) with
    | true =>
      simp only [editNetworkDevice] at h
      rw [hany] at h
      simp at h
    | false =>
      simp only [editNetworkDevice] at h
      rw [hany] at h
      simp only [Bool.false_eq_true, if_false, Except.ok.injEq] at h
      refine ⟨?_, ?_, ?_, ?_, ?_⟩ <;>
        · rw [← h, List.map_map]
          apply List.map_congr_left
          intro a _
          by_cases hh : (a.id == deviceId) = true
          · simp [Function.comp, hh, editDeviceRecord]
          · simp [Function.comp, hh]
  · intro p devices result d h hport
    cases hany : devices.any (fun e => e.ipAddress == some p.ip) with
    | true =>
      simp only [addNetworkDevice] at h
      rw [hany] at h
      simp at h
    | false =>
      simp only [addNetworkDevice] at h
      rw [hany] at h
      simp only [Bool.false_eq_true, if_false, Except.ok.injEq, Prod.mk.injEq] at h
      rw [← h.2]
      simp [hport]

/-- Witness for C10: a port-9100 edit of the sample Scanner keeps every
non-identity field (in particular the Scanner type), while an add with port
9100 infers Printer. -/
theorem editNetworkDevice_preserves_other_fields_witness :
    ([editDeviceRecord sampleNetDevice samplePayloadSameIp].map Device.status
        = [sampleNetDevice].map Device.status ∧
      [editDeviceRecord sampleNetDevice samplePayloadSameIp].map Device.manufacturer
        = [sampleNetDevice].map Device.manufacturer ∧
      [editDeviceRecord sampleNetDevice samplePayloadSameIp].map Device.connectionType
        = [sampleNetDevice].map Device.connectionType ∧
      [editDeviceRecord sampleNetDevice samplePayloadSameIp].map Device.type
        = [sampleNetDevice].map Device.type ∧
      [editDeviceRecord sampleNetDevice samplePayloadSameIp].map Device.rawDevice
        = [sampleNetDevice].map Device.rawDevice) ∧
    sampleAddedDevice.type = DeviceType.Printer :=
  ⟨editNetworkDevice_preserves_other_fields.1 sampleNetDevice.id samplePayloadSameIp
      [sampleNetDevice] [editDeviceRecord sampleNetDevice samplePayloadSameIp] (by rfl),
   editNetworkDevice_preserves_other_fields.2 sampleAddPayload [] [sampleAddedDevice]
      sampleAddedDevice (by rfl) rfl⟩

/-- C7 counterexample: with no API key configured, `extractStructuredData`
throws (`throw new Error(...)` at `gemini.service.ts` line 140, modelled as
`Except.error`) instead of returning a placeholder response — refuting the
claim that every AI-facade call returns a placeholder rather than throwing. -/
theorem extractStructuredData_noKey_throws :
    extractStructuredData none (Except.ok ({} : ExtractedDocumentData))
        "data:image/png;base64,AAAA"
      = Except.error "API_KEY environment variable not set. Gemini API will not work." :=
  rfl

/-- C7 amended: with no configured key, troubleshooting-step generation and
image analysis return clearly-labeled placeholder/error responses without
throwing, while structured-field extraction throws an Error carrying the
same label (its caller catches it); no call reaches the AI backend. -/
theorem aiFacade_noKey_degrades (apiKey : Option String)
    (hk : apiKeyConfigured apiKey = false) :
    (∀ apiOutcome deviceName issue,
       getTroubleshootingSteps apiKey apiOutcome deviceName issue
         = Except.ok noKeyStepsResponse) ∧
    (∀ apiOutcome img prompt,
       analyzeImage apiKey apiOutcome img prompt
         = Except.ok "Error: API_KEY environment variable not set. Gemini API will not work.") ∧
    (∀ apiOutcome img,
       extractStructuredData apiKey apiOutcome img
         = Except.error "API_KEY environment variable not set. Gemini API will not work.") := by
  refine ⟨?_, ?_, ?_⟩
  · intro apiOutcome deviceName issue
    simp [getTroubleshootingSteps, hk]
  · intro apiOutcome img prompt
    simp [analyzeImage, hk]
  · intro apiOutcome img
    simp [extractStructuredData, hk]

/-- Witness for the amended C7 at `apiKey = none`. -/
theorem aiFacade_noKey_degrades_witness :
    getTroubleshootingSteps none (Except.ok stepsFetchFailureResponse)
        "HP LaserJet Pro" "it has a paper jam" = Except.ok noKeyStepsResponse ∧
    analyzeImage none (Except.ok "text") "data:image/png;base64,AAAA" "prompt"
      = Except.ok "Error: API_KEY environment variable not set. Gemini API will not work." ∧
    extractStructuredData none (Except.ok ({} : ExtractedDocumentData))
        "data:image/png;base64,AAAA"
      = Except.error "API_KEY environment variable not set. Gemini API will not work." :=
  ⟨(aiFacade_noKey_degrades none rfl).1 (Except.ok stepsFetchFailureResponse)
      "HP LaserJet Pro" "it has a paper jam",
   (aiFacade_noKey_degrades none rfl).2.1 (Except.ok "text")
      "data:image/png;base64,AAAA" "prompt",
   (aiFacade_noKey_degrades none rfl).2.2 (Except.ok ({} : ExtractedDocumentData))
      "data:image/png;base64,AAAA"⟩

/-- C8 counterexample: on the sample open USB device whose active
configuration exposes one interface, a failing `releaseInterface` makes
`disconnectDevice` set the entry's status to Error and reject with
'Failed to disconnect cleanly.' — the failure is surfaced as a Disconnect
error, the handle is not closed and status is not set to Ready, refuting the
claim that release failure is logged-and-continued best-effort cleanup. -/
theorem disconnect_release_failure_surfaced :
    disconnectDevice (Except.error "release failed") (Except.ok ())
        [mapUSBDeviceToDevice sampleOpenUsbRaw] (createDeviceId sampleOpenUsbRaw)
      = ([{ mapUSBDeviceToDevice sampleOpenUsbRaw with status := DeviceStatus.Error }],
         Except.error "Failed to disconnect cleanly.") ∧
    DeviceStatus.Error ≠ DeviceStatus.Ready :=
  ⟨rfl, by decide⟩

/-- C8 amended: when `releaseInterface` fails during `disconnectDevice` on an
open USB device whose active configuration has at least one interface, the
shared try/catch surfaces the failure: the device's status is set to Error and
the call rejects with the Disconnect error 'Failed to disconnect cleanly.'
(the handle is not closed and status is not set to Ready). -/
theorem disconnectDevice_release_failure (releaseMsg : String)
    (closeOut : Except String Unit) (devices : List Device) (d : Device)
    (u : USBDevice) (cfg : USBConfiguration)
    (hfind : devices.find? (fun e => e.id == d.id) = some d)
    (htype : d.connectionType = ConnectionType.USB) (hraw : d.rawDevice = some u)
    (hopen : u.opened = true) (hcfg : u.configuration = some cfg)
    (hif : cfg.interfaces.length > 0) :
    disconnectDevice (Except.error releaseMsg) closeOut devices d.id
      = (devices.map (fun e =>
          if e.id == d.id then { e with status := DeviceStatus.Error } else e),
         Except.error "Failed to disconnect cleanly.") := by
  simp [disconnectDevice, hfind, htype, hraw, hopen, hcfg, hif]

/-- Witness for the amended C8 at the sample open USB device. -/
theorem disconnectDevice_release_failure_witness :
    disconnectDevice (Except.error "NetworkError") (Except.ok ())
        [mapUSBDeviceToDevice sampleOpenUsbRaw] (mapUSBDeviceToDevice sampleOpenUsbRaw).id
      = ([{ mapUSBDeviceToDevice sampleOpenUsbRaw with status := DeviceStatus.Error }],
         Except.error "Failed to disconnect cleanly.") := by
  exact disconnectDevice_release_failure "NetworkError" (Except.ok ())
    [mapUSBDeviceToDevice sampleOpenUsbRaw] (mapUSBDeviceToDevice sampleOpenUsbRaw)
    sampleOpenUsbRaw sampleUsbConfig (by rfl) rfl rfl rfl rfl (by decide)
